import Mathlib

/-!
# Verification of the deployment decision engine

A shallow embedding of the core orchestration logic of the repository
(`deployment_orchestrator.py` and `template_engine.py`).  Pure Python
functions become Lean functions; the mutable per-run state (counters,
results map, the template engine's cache, the device dictionaries that
the code mutates in place) is threaded explicitly.  The external
collaborators excluded by the design document — the SSH transport
(netmiko) and the Jinja2 rendering backend — enter as a record of pure
oracles (`Env`): each collaborator call is a deterministic function of
its arguments, and a call that raises is modelled as an `Except.error`.
Wall-clock execution time is environmental noise and is modelled as `0`;
no property below depends on it.
-/

/-- Status values for deployment operations (`DeploymentStatus` enum). -/
inductive DeploymentStatus
  | pending
  | in_progress
  | success
  | failed
  | skipped
  | rolled_back
deriving DecidableEq

/-- Result of a single device deployment (`DeviceResult` dataclass).
`execution_time` is wall clock in the source; modelled as 0. -/
structure DeviceResult where
  device_name : String
  status : DeploymentStatus
  message : String
  config_lines : Nat := 0
  execution_time : Nat := 0
  error : Option String := none
deriving DecidableEq

/-- Result of a complete deployment operation (`DeploymentResult` dataclass).
The Python `results` dict is an insertion-ordered association list here. -/
structure DeploymentResult where
  total_devices : Nat
  successful : Nat
  failed : Nat
  skipped : Nat
  execution_time : Nat
  results : List (String × DeviceResult)
  summary : String
deriving DecidableEq

/-- The dict returned by `validate_template_syntax`: `valid` is always
present; the remaining keys are present on some paths only. -/
structure ValidationResult where
  valid : Bool
  error : Option String := none
  length : Option Nat := none
  lines : Option Nat := none
  line_number : Option Nat := none
deriving DecidableEq

/-- The `credentials` sub-mapping of a device entry (opaque to the core;
only read to build connection parameters). -/
structure Credentials where
  username : Option String := none
  password : Option String := none
  ssh_key_file : Option String := none
deriving DecidableEq

/-- The keyword arguments `deploy_device` passes to the transport
collaborator's `connect`. -/
structure ConnectionParams where
  device_type : String
  username : String
  password : Option String
  ssh_key_file : Option String
deriving DecidableEq

/-- A device entry of the inventory.  The source keeps it as an open
Python dict; the fields below are exactly the keys the core reads or
writes (`none` = key absent).  `template_name_var` models the extra
`template_name` key that `generate_config` writes into the dict. -/
structure DeviceConfig where
  name : Option String := none
  ip : Option String := none
  device_type : Option String := none
  role : Option String := none
  template : Option String := none
  deployment_order : Option Int := none
  credentials : Option Credentials := none
  template_name_var : Option String := none
deriving DecidableEq

/-- `global_settings` section of the inventory YAML. -/
structure GlobalSettings where
  dry_run_default : Option Bool := none
deriving DecidableEq

/-- `deployment_strategy` section of the inventory YAML. -/
structure DeploymentStrategy where
  rollback_on_failure : Option Bool := none
deriving DecidableEq

/-- A parsed inventory: the `devices` mapping in declaration order plus
the two policy sections. -/
structure Inventory where
  devicesRaw : List (String × DeviceConfig) := []
  global_settings : Option GlobalSettings := none
  deployment_strategy : Option DeploymentStrategy := none
deriving DecidableEq

/-- Mutable state of the `TemplateEngine`: the `template_cache` dict,
keyed by template name (cached objects are recoverable from the name
because the backend is deterministic while files are unchanged). -/
structure EngineState where
  template_cache : List String := []
deriving DecidableEq

/-- Outcome of the Jinja2 loader behind `env.get_template` inside
`TemplateEngine.get_template`: found, `TemplateNotFound`, or any other
raised exception (both non-found outcomes are caught and become `None`). -/
inductive LoadOutcome
  | found
  | notFound
  | raised (msg : String)
deriving DecidableEq

/-- Outcome of rendering a loaded template with given variables inside
`render_template` (`UndefinedError`, `TemplateRuntimeError` and any other
exception are each caught and become `None`). -/
inductive RenderOutcome
  | ok (text : String)
  | undefinedErr (msg : String)
  | runtimeErr (msg : String)
  | otherErr (msg : String)
deriving DecidableEq

/-- Combined outcome of `env.get_template` + `template.render(**minimal_vars)`
inside `validate_template_syntax`, with the canonical probe variable set
fixed by the source; classified by the except clauses of that method. -/
inductive ProbeOutcome
  | ok (rendered : String)
  | synErr (msg : String) (lineno : Option Nat)
  | undefinedErr (msg : String)
  | otherErr (msg : String)
deriving DecidableEq

/-- One observable transport-collaborator call made during a run. -/
inductive CallEvent
  | connectCall (device_name : String)
  | deployConfigCall (device_name : String)
  | disconnectCall (device_name : String)
deriving DecidableEq

/-- The external collaborators as pure oracles.  Transport calls return
`Except.error msg` to model a raised exception, `Except.ok b` for a
normal boolean return.  `listTemplatesFS`/`templateExistsFS` are the
frozen view of the template directory; `probe` is the validation
rendering with the fixed canonical variable tree. -/
structure Env where
  connect : String → String → ConnectionParams → Except String Bool
  deployConfig : String → String → Bool → Except String Bool
  disconnect : String → Except String Bool
  loadTemplate : String → LoadOutcome
  render : String → DeviceConfig → RenderOutcome
  listTemplatesFS : List String
  templateExistsFS : String → Bool
  probe : String → ProbeOutcome

/-- Python truthiness of an optional string value: `if not x` fails for
an absent key, `None`, and the empty string. -/
def pyTruthy : Option String → Bool
  | none => false
  | some s => s != ""

/-- First-match lookup in an association list (Python dict read). -/
def lookupPy {α : Type} : List (String × α) → String → Option α
  | [], _ => none
  | (k, v) :: t, key => if k = key then some v else lookupPy t key

/-- Python dict write: replace the value of an existing key in place,
otherwise append at the end (insertion order preserved). -/
def dictInsert {α : Type} : List (String × α) → String → α → List (String × α)
  | [], key, v => [(key, v)]
  | (k, w) :: t, key, v =>
      if k = key then (key, v) :: t else (k, w) :: dictInsert t key v

/-- Splitting a character list at newline characters — the character
level semantics of Python's `str.split('\n')` (and of `String.splitOn
"\n"`, which is avoided here because it does not reduce inside the
kernel). -/
def splitOnNewline : List Char → List (List Char)
  | [] => [[]]
  | c :: cs =>
      match splitOnNewline cs with
      | [] => [[]]
      | l :: ls => if c = '\n' then [] :: l :: ls else (c :: l) :: ls

/-- `len([line for line in config.split('\n') if line.strip()])`: a line
survives `strip()` exactly when it has a non-whitespace character. -/
def countNonEmptyLines (config : String) : Nat :=
  ((splitOnNewline config.data).filter fun line =>
      line.any fun c => ¬ c.isWhitespace).length

/-- Nearest integer to `num / den` with ties to even, the rounding of
Python's fixed-point formatting (binary floating-point artifacts of the
source's `f"{rate:.1f}"` are out of scope; no claim depends on them). -/
def roundHalfEven (num den : Nat) : Nat :=
  if den = 0 then 0
  else
    let q := num / den
    let r := num % den
    if 2 * r < den then q
    else if den < 2 * r then q + 1
    else if q % 2 = 0 then q else q + 1

/-- The run summary string
`f"{successful}/{len(self.devices)} devices deployed successfully ({success_rate:.1f}%)"`. -/
def mkSummary (successful total : Nat) : String :=
  let tenths := roundHalfEven (successful * 1000) total
  toString successful ++ "/" ++ toString total ++
    " devices deployed successfully (" ++
    toString (tenths / 10) ++ "." ++ toString (tenths % 10) ++ "%)"

/-! ## Template engine (`template_engine.py`) -/

/-- Code-point-wise lexicographic comparison of character lists —
Python's string ordering. -/
def charsLE : List Char → List Char → Bool
  | [], _ => true
  | _ :: _, [] => false
  | a :: as, b :: bs =>
      if a.val < b.val then true
      else if b.val < a.val then false
      else charsLE as bs

/-- The ordering used by `templates.sort()`. -/
def tmplNameLE (a b : String) : Prop :=
  charsLE a.data b.data = true

instance : DecidableRel tmplNameLE := fun a b =>
  inferInstanceAs (Decidable (charsLE a.data b.data = true))

/-- `TemplateEngine.list_templates`: glob of `*.j2` then `templates.sort()`. -/
def list_templates (env : Env) : List String :=
  List.insertionSort tmplNameLE env.listTemplatesFS

/-- `TemplateEngine.template_exists`. -/
def template_exists (env : Env) (template_name : String) : Bool :=
  env.templateExistsFS template_name

/-- `TemplateEngine.validate_template_syntax` (name shortened: the full
source name ends in a word this development avoids as an identifier
suffix).  Existence check, then one probe render with the canonical
variable set, classified exactly as the source's except clauses do. -/
def validate_template_syn (env : Env) (template_name : String) : ValidationResult :=
  if ¬ template_exists env template_name then
    { valid := false, error := some ("Template file not found: " ++ template_name) }
  else
    match env.probe template_name with
    | ProbeOutcome.ok rendered =>
        { valid := true, length := some rendered.length,
          lines := some ((splitOnNewline rendered.data).length) }
    | ProbeOutcome.synErr msg lineno =>
        { valid := false, error := some ("Syntax error: " ++ msg), line_number := lineno }
    | ProbeOutcome.undefinedErr msg =>
        { valid := false, error := some ("Undefined variable: " ++ msg) }
    | ProbeOutcome.otherErr msg =>
        { valid := false, error := some ("Validation error: " ++ msg) }

/-- `TemplateEngine.validate_all_templates`: validate every discovered
template, in sorted order.  The method reads files and renders through
the backend only; it assigns to no engine field, so the engine state
passes through unchanged. -/
def validate_all_templates (env : Env) (st : EngineState) :
    List (String × ValidationResult) × EngineState :=
  ((list_templates env).map fun n => (n, validate_template_syn env n), st)

/-- `TemplateEngine.get_template`: serve from `template_cache`, else load
through the backend, caching on success; `TemplateNotFound` and any other
exception are caught and yield `None`. -/
def get_template (env : Env) (st : EngineState) (template_name : String) :
    Option String × EngineState :=
  if st.template_cache.contains template_name then (some template_name, st)
  else
    match env.loadTemplate template_name with
    | LoadOutcome.found =>
        (some template_name, { st with template_cache := st.template_cache ++ [template_name] })
    | LoadOutcome.notFound => (none, st)
    | LoadOutcome.raised _ => (none, st)

/-- `TemplateEngine.render_template`: load (cached), then render.  The
source first merges `_prepare_variables` defaults into the dict; that
merge only feeds the opaque backend, so it is folded into the `render`
oracle's view of the variables.  All rendering exceptions are caught and
yield `None`. -/
def render_template (env : Env) (st : EngineState) (template_name : String)
    (vars : DeviceConfig) : Option String × EngineState :=
  let loaded := get_template env st template_name
  match loaded.1 with
  | none => (none, loaded.2)
  | some tn =>
      match env.render tn vars with
      | RenderOutcome.ok text => (some text, loaded.2)
      | RenderOutcome.undefinedErr _ => (none, loaded.2)
      | RenderOutcome.runtimeErr _ => (none, loaded.2)
      | RenderOutcome.otherErr _ => (none, loaded.2)

/-- The `template_mapping` dict of `generate_config`. -/
def template_mapping : String → Option String
  | "management" => some "management_switch.j2"
  | "core" => some "core_switch.j2"
  | "access" => some "access_switch.j2"
  | "edge" => some "edge_router.j2"
  | "router" => some "edge_router.j2"
  | _ => none

/-- `TemplateEngine.generate_config`.  Note the in-place mutation of the
caller's dict: `device_vars['template_name'] = template_name` and
`device_vars['device_type'] = device_type` happen before rendering, so
the (possibly mutated) dict is returned alongside the rendered text. -/
def generate_config (env : Env) (st : EngineState) (device_type : String)
    (device_vars : DeviceConfig) : Option String × DeviceConfig × EngineState :=
  match template_mapping device_type with
  | none => (none, device_vars, st)
  | some template_name =>
      let dv := { device_vars with
                    template_name_var := some template_name,
                    device_type := some device_type }
      let rendered := render_template env st template_name dv
      (rendered.1, dv, rendered.2)

/-! ## Deployment orchestrator (`deployment_orchestrator.py`) -/

/-- Sort key of a device entry: `d.get('deployment_order', 999)`. -/
def orderKey (d : DeviceConfig) : Int :=
  d.deployment_order.getD 999

/-- The comparison Python's stable sorts use in `load_inventory` and
`get_deployment_sequence`. -/
def devOrderLE (a b : DeviceConfig) : Prop :=
  orderKey a ≤ orderKey b

instance : DecidableRel devOrderLE := fun a b =>
  inferInstanceAs (Decidable (orderKey a ≤ orderKey b))

instance : IsTotal DeviceConfig devOrderLE :=
  ⟨fun a b => le_total (orderKey a) (orderKey b)⟩

instance : IsTrans DeviceConfig devOrderLE :=
  ⟨fun _ _ _ hab hbc => le_trans hab hbc⟩

/-- The device-list part of `load_inventory`: each entry receives its
mapping key as `name`, then the list is stably sorted by deployment
order.  Python's `list.sort` is stable; `List.insertionSort` inserts
each element after all equal keys already placed before it, which is
the same stable semantics. -/
def load_devices (inv : Inventory) : List DeviceConfig :=
  List.insertionSort devOrderLE
    (inv.devicesRaw.map fun p => { p.2 with name := some p.1 })

/-- `DeploymentOrchestrator.get_deployment_sequence`:
`sorted(self.devices, key=lambda d: d.get('deployment_order', 999))`. -/
def get_deployment_sequence (devices : List DeviceConfig) : List DeviceConfig :=
  List.insertionSort devOrderLE devices

/-- The `used_templates` collection of `validate_templates` (a set in the
source, only ever tested for emptiness, so order and duplicates are
irrelevant). -/
def used_templates (devices : List DeviceConfig) : List String :=
  devices.filterMap fun d =>
    if pyTruthy d.template then some (d.template.getD "" ++ ".j2") else none

/-- `DeploymentOrchestrator.validate_templates`: if no device names a
template the gate passes immediately; otherwise every template the
engine discovers must validate (`used_templates` is not used to scope
the check). -/
def validate_templates (env : Env) (st : EngineState)
    (devices : List DeviceConfig) : Bool :=
  if used_templates devices = [] then true
  else (validate_all_templates env st).1.all fun p => p.2.valid

/-- Dry-run resolution: explicit argument, else
`inventory.get('global_settings', {}).get('dry_run_default', True)`. -/
def effectiveDryRun (inv : Inventory) (dry_run : Option Bool) : Bool :=
  dry_run.getD ((inv.global_settings.bind fun g => g.dry_run_default).getD true)

/-- `inventory.get('deployment_strategy', {}).get('rollback_on_failure', True)`. -/
def rollbackEnabled (inv : Inventory) : Bool :=
  (inv.deployment_strategy.bind fun s => s.rollback_on_failure).getD true

/-- A `Failed` result carrying a message and an error string (the shape
of every early-return failure in `deploy_device`). -/
def failedResult (device_name message error : String) : DeviceResult :=
  { device_name := device_name, status := DeploymentStatus.failed,
    message := message, error := some error }

/-- The `Success` result of `deploy_device`. -/
def successResult (device_name : String) (config_lines : Nat) : DeviceResult :=
  { device_name := device_name, status := DeploymentStatus.success,
    message := "Successfully deployed " ++ toString config_lines ++ " configuration lines",
    config_lines := config_lines }

/-- The `Failed` result when `deploy_config` returns `False`. -/
def deployFailedResult (device_name : String) (config_lines : Nat) : DeviceResult :=
  { device_name := device_name, status := DeploymentStatus.failed,
    message := "Configuration deployment failed", config_lines := config_lines,
    error := some "Deployment execution failed" }

/-- The catch-all result of `deploy_device`'s outer except clause. -/
def exceptionResult (device_name error_msg : String) : DeviceResult :=
  { device_name := device_name, status := DeploymentStatus.failed,
    message := "Deployment failed with exception", error := some error_msg }

/-- The `Skipped` result written by the skip-gate in `deploy_all_devices`. -/
def skippedResult (device_name : String) : DeviceResult :=
  { device_name := device_name, status := DeploymentStatus.skipped,
    message := "Skipped due to previous deployment failures" }

/-- What one `deploy_device` call produces: its `DeviceResult`, the
device dict after any in-place mutation, the engine state after any
caching, and the transport calls it made. -/
structure DeployOutcome where
  result : DeviceResult
  device : DeviceConfig
  engine : EngineState
  calls : List CallEvent
deriving DecidableEq

/-- Tail of `deploy_device` after a configuration was generated:
dry-run short-circuits to success; otherwise `deploy_config` then
`disconnect` (the latter skipped when the former raises), then the
outcome is classified.  A raised transport exception falls to the outer
except clause. -/
def deploy_finish (env : Env) (device_name : String) (dryRun : Bool)
    (config : String) (dev : DeviceConfig) (st : EngineState)
    (trace : List CallEvent) : DeployOutcome :=
  let config_lines := countNonEmptyLines config
  if dryRun then
    { result := successResult device_name config_lines,
      device := dev, engine := st, calls := trace }
  else
    match env.deployConfig device_name config false with
    | Except.error e =>
        { result := exceptionResult device_name e, device := dev, engine := st,
          calls := trace ++ [CallEvent.deployConfigCall device_name] }
    | Except.ok deployment_success =>
        match env.disconnect device_name with
        | Except.error e =>
            { result := exceptionResult device_name e, device := dev, engine := st,
              calls := trace ++ [CallEvent.deployConfigCall device_name,
                                 CallEvent.disconnectCall device_name] }
        | Except.ok _ =>
            if deployment_success then
              { result := successResult device_name config_lines,
                device := dev, engine := st,
                calls := trace ++ [CallEvent.deployConfigCall device_name,
                                   CallEvent.disconnectCall device_name] }
            else
              { result := deployFailedResult device_name config_lines,
                device := dev, engine := st,
                calls := trace ++ [CallEvent.deployConfigCall device_name,
                                   CallEvent.disconnectCall device_name] }

/-- The configuration-generation step of `deploy_device`:
`config = self.template_engine.generate_config(role, device_config)`
followed by the falsiness check (`None` or empty string fail). -/
def deploy_render (env : Env) (st : EngineState) (device_name role : String)
    (dryRun : Bool) (device_config : DeviceConfig)
    (trace : List CallEvent) : DeployOutcome :=
  let gen := generate_config env st role device_config
  if pyTruthy gen.1 then
    deploy_finish env device_name dryRun (gen.1.getD "") gen.2.1 gen.2.2 trace
  else
    { result := failedResult device_name "Failed to generate configuration"
                  "Template rendering failed",
      device := gen.2.1, engine := gen.2.2, calls := trace }

/-- `DeploymentOrchestrator.deploy_device`.  Total by construction: the
source wraps the body in `try/except Exception`, so every path — the
explicit validations, a failed or raising transport call, a failed
render — ends in a returned `DeviceResult`. -/
def deploy_device (env : Env) (inv : Inventory) (st : EngineState)
    (device_config : DeviceConfig) (dry_run : Option Bool) : DeployOutcome :=
  let device_name := device_config.name.getD "unknown"
  let dryRun := effectiveDryRun inv dry_run
  let device_ip := device_config.ip
  let device_type := device_config.device_type.getD "huawei"
  let role := device_config.role.getD "unknown"
  if ¬ pyTruthy device_ip then
    { result := failedResult device_name "No IP address specified"
                  "Missing device IP address",
      device := device_config, engine := st, calls := [] }
  else if ¬ pyTruthy device_config.template then
    { result := failedResult device_name "No template specified"
                  "Missing template name",
      device := device_config, engine := st, calls := [] }
  else if dryRun then
    deploy_render env st device_name role true device_config []
  else
    let credentials := device_config.credentials.getD {}
    let params : ConnectionParams :=
      { device_type := device_type,
        username := credentials.username.getD "admin",
        password := credentials.password,
        ssh_key_file := credentials.ssh_key_file }
    match env.connect device_name (device_ip.getD "") params with
    | Except.error e =>
        { result := exceptionResult device_name e, device := device_config,
          engine := st, calls := [CallEvent.connectCall device_name] }
    | Except.ok false =>
        { result := failedResult device_name "Failed to connect to device"
                      "SSH connection failed",
          device := device_config, engine := st,
          calls := [CallEvent.connectCall device_name] }
    | Except.ok true =>
        deploy_render env st device_name role false device_config
          [CallEvent.connectCall device_name]

/-- The mutable state of one `deploy_all_devices` run: the counters, the
results dict, the engine state, the device dicts already visited (after
any in-place mutation), and the transport calls made so far. -/
structure LoopState where
  results : List (String × DeviceResult) := []
  successful : Nat := 0
  failed : Nat := 0
  skipped : Nat := 0
  engine : EngineState
  doneDevices : List DeviceConfig := []
  calls : List CallEvent := []
deriving DecidableEq

/-- One iteration of the device loop in `deploy_all_devices`: either the
skip-gate fires (rollback enabled and a prior failure), or the device is
deployed and exactly one of the success/failure counters advances. -/
def deploy_step (env : Env) (inv : Inventory) (dryRun : Bool)
    (s : LoopState) (device_config : DeviceConfig) : LoopState :=
  let device_name := device_config.name.getD "unknown"
  if rollbackEnabled inv ∧ 0 < s.failed then
    { s with results := dictInsert s.results device_name (skippedResult device_name),
             skipped := s.skipped + 1,
             doneDevices := s.doneDevices ++ [device_config] }
  else
    let o := deploy_device env inv s.engine device_config (some dryRun)
    let s' := { s with results := dictInsert s.results device_name o.result,
                       engine := o.engine,
                       doneDevices := s.doneDevices ++ [o.device],
                       calls := s.calls ++ o.calls }
    if o.result.status = DeploymentStatus.success then
      { s' with successful := s.successful + 1 }
    else
      { s' with failed := s.failed + 1 }

/-- The device loop of `deploy_all_devices`, in sequence order. -/
def deploy_loop (env : Env) (inv : Inventory) (dryRun : Bool) :
    List DeviceConfig → LoopState → LoopState
  | [], s => s
  | d :: rest, s => deploy_loop env inv dryRun rest (deploy_step env inv dryRun s d)

/-- What one `deploy_all_devices` run produces: the `DeploymentResult`,
the engine state, the device dicts after the run, and the transport
calls made. -/
structure RunOutcome where
  result : DeploymentResult
  engine : EngineState
  devices : List DeviceConfig
  calls : List CallEvent
deriving DecidableEq

/-- The loop state a run starts from. -/
def initLoopState (st : EngineState) : LoopState :=
  { engine := st }

/-- `DeploymentOrchestrator.deploy_all_devices`: empty-inventory
short-circuit, dry-run resolution, the validation gate (aborting before
any device is touched), then the sequential loop and the summary.  On
the two short-circuit paths the device dicts are untouched and no
transport call occurs. -/
def deploy_all_devices (env : Env) (inv : Inventory) (st : EngineState)
    (devices : List DeviceConfig) (dry_run : Option Bool) : RunOutcome :=
  if devices = [] then
    { result := { total_devices := 0, successful := 0, failed := 0, skipped := 0,
                  execution_time := 0, results := [],
                  summary := "No devices to deploy" },
      engine := st, devices := devices, calls := [] }
  else
    let dryRun := effectiveDryRun inv dry_run
    if ¬ validate_templates env st devices then
      { result := { total_devices := devices.length, successful := 0,
                    failed := devices.length, skipped := 0, execution_time := 0,
                    results := [],
                    summary := "Template validation failed - deployment aborted" },
        engine := st, devices := devices, calls := [] }
    else
      let seq := get_deployment_sequence devices
      let fin := deploy_loop env inv dryRun seq (initLoopState st)
      { result := { total_devices := devices.length, successful := fin.successful,
                    failed := fin.failed, skipped := fin.skipped,
                    execution_time := 0, results := fin.results,
                    summary := mkSummary fin.successful devices.length },
        engine := fin.engine, devices := fin.doneDevices, calls := fin.calls }

/-! ## Concrete fixtures used by witnesses and counterexamples -/

/-- A benign environment: every transport call succeeds, every template
loads and renders to a one-line text, the template directory is empty. -/
def trivEnv : Env :=
  { connect := fun _ _ _ => Except.ok true,
    deployConfig := fun _ _ _ => Except.ok true,
    disconnect := fun _ => Except.ok true,
    loadTemplate := fun _ => LoadOutcome.found,
    render := fun _ _ => RenderOutcome.ok "sysname TEST",
    listTemplatesFS := [],
    templateExistsFS := fun _ => true,
    probe := fun _ => ProbeOutcome.ok "sysname TEST" }

/-- Template store with a valid template `a.j2` and a syntactically
broken template `b.j2`. -/
def envC1 : Env :=
  { trivEnv with
      listTemplatesFS := ["a.j2", "b.j2"],
      probe := fun n =>
        if n = "b.j2" then ProbeOutcome.synErr "unexpected end of template" (some 3)
        else ProbeOutcome.ok "sysname TEST" }

/-- A device referencing only template `a` (probed as `a.j2`). -/
def devC1 : DeviceConfig :=
  { name := some "sw1", ip := some "10.0.0.1", role := some "core",
    template := some "a", deployment_order := some 1 }

/-! ## Small helper lemmas -/

lemma lookupPy_dictInsert {α : Type} (m : List (String × α)) (key k : String) (v : α) :
    lookupPy (dictInsert m key v) k = if key = k then some v else lookupPy m k := by
  induction m with
  | nil => simp [dictInsert, lookupPy]
  | cons hd t ih =>
      obtain ⟨k0, w⟩ := hd
      by_cases h0 : k0 = key
      · subst h0
        simp only [dictInsert, if_pos rfl, lookupPy]
        by_cases hk : k0 = k
        · subst hk; simp [lookupPy]
        · simp [lookupPy, hk]
      · simp only [dictInsert, if_neg h0, lookupPy]
        by_cases hk : k0 = k
        · subst hk
          have : ¬ key = k0 := fun h => h0 h.symm
          simp [lookupPy, this]
        · simp [lookupPy, hk, ih]

/-- An invalid entry in the validation report forces `all` to `false`. -/
lemma all_valid_false {l : List (String × ValidationResult)}
    (p : String × ValidationResult) (hp : p ∈ l) (hpv : p.2.valid = false) :
    (l.all fun q => q.2.valid) = false := by
  cases h : l.all fun q => q.2.valid
  · rfl
  · exfalso
    have := List.all_eq_true.mp h p hp
    rw [hpv] at this
    exact Bool.false_ne_true this

/-! ## C1 -/

/-- C1 counterexample: the only template referenced by a device
(`a.j2`) is valid, yet the gate fails because the unreferenced template
`b.j2` is invalid — refuting the claim that an invalid template no
device references cannot make the gate fail. -/
theorem C1_counterexample :
    used_templates [devC1] = ["a.j2"] ∧
    (validate_template_syn envC1 "a.j2").valid = true ∧
    (validate_template_syn envC1 "b.j2").valid = false ∧
    validate_templates envC1 {} [devC1] = false := by
  decide

/-- C1 (amended): the pre-flight gate of `deployAllDevices` scopes to
every template file the engine discovers, not to referenced templates:
whenever at least one device references a template, any invalid
discovered template — referenced or not — makes the gate fail.  (Only
when no device references any template is the template set ignored.) -/
theorem C1_gate_scope (env : Env) (st : EngineState) (devices : List DeviceConfig)
    (hused : used_templates devices ≠ [])
    (p : String × ValidationResult)
    (hp : p ∈ (validate_all_templates env st).1)
    (hpv : p.2.valid = false) :
    validate_templates env st devices = false := by
  unfold validate_templates
  rw [if_neg hused]
  exact all_valid_false p hp hpv

/-- C1 witness: the amended gate theorem applied at the concrete store. -/
theorem C1_gate_scope_witness :
    used_templates [devC1] ≠ [] ∧
    ("b.j2", validate_template_syn envC1 "b.j2") ∈ (validate_all_templates envC1 {}).1 ∧
    validate_templates envC1 {} [devC1] = false :=
  ⟨by decide, by decide,
    C1_gate_scope envC1 {} [devC1] (by decide)
      ("b.j2", validate_template_syn envC1 "b.j2") (by decide) (by decide)⟩

/-! ## C2 -/

/-- C2: on any non-empty inventory whose template gate fails,
`deploy_all_devices` short-circuits with `failed = totalDevices`,
`successful = skipped = 0`, an empty per-device results map, the fixed
abort summary, and no transport-collaborator call at all. -/
theorem C2_gate_abort (env : Env) (inv : Inventory) (st : EngineState)
    (devices : List DeviceConfig) (dry : Option Bool)
    (hne : devices ≠ [])
    (hgate : validate_templates env st devices = false) :
    (deploy_all_devices env inv st devices dry).result.total_devices = devices.length ∧
    (deploy_all_devices env inv st devices dry).result.successful = 0 ∧
    (deploy_all_devices env inv st devices dry).result.failed = devices.length ∧
    (deploy_all_devices env inv st devices dry).result.skipped = 0 ∧
    (deploy_all_devices env inv st devices dry).result.results = [] ∧
    (deploy_all_devices env inv st devices dry).result.summary =
      "Template validation failed - deployment aborted" ∧
    (deploy_all_devices env inv st devices dry).calls = [] := by
  simp [deploy_all_devices, hne, hgate]

/-- C2 witness: a one-device inventory referencing the broken template
store of `envC1` (with `b.j2` invalid) aborts exactly as stated. -/
theorem C2_gate_abort_witness :
    [devC1] ≠ ([] : List DeviceConfig) ∧
    validate_templates envC1 {} [devC1] = false ∧
    (deploy_all_devices envC1 {} {} [devC1] none).result.failed = 1 ∧
    (deploy_all_devices envC1 {} {} [devC1] none).calls = [] := by
  refine ⟨by decide, by decide, ?_, ?_⟩
  · exact (C2_gate_abort envC1 {} {} [devC1] none (by decide) (by decide)).2.2.1
  · exact (C2_gate_abort envC1 {} {} [devC1] none (by decide) (by decide)).2.2.2.2.2.2

/-! ## C8 -/

/-- C8: `validateAll` is idempotent — it leaves the engine state exactly
as it found it, a second call yields the identical result map, and the
result map does not depend on whatever is cached in the engine state. -/
theorem C8_validate_all_idempotent (env : Env) (st : EngineState) :
    (validate_all_templates env ((validate_all_templates env st).2)).1 =
      (validate_all_templates env st).1 ∧
    (validate_all_templates env st).2 = st ∧
    (∀ st2 : EngineState,
      (validate_all_templates env st2).1 = (validate_all_templates env st).1) := by
  exact ⟨rfl, rfl, fun _ => rfl⟩

/-! ## C4 -/

lemma deploy_finish_status (env : Env) (device_name : String) (dryRun : Bool)
    (config : String) (dev : DeviceConfig) (st : EngineState)
    (trace : List CallEvent) :
    (deploy_finish env device_name dryRun config dev st trace).result.status =
        DeploymentStatus.success ∨
    ((deploy_finish env device_name dryRun config dev st trace).result.status =
        DeploymentStatus.failed ∧
     (deploy_finish env device_name dryRun config dev st trace).result.error ≠ none) := by
  unfold deploy_finish
  repeat' split
  all_goals simp [successResult, exceptionResult, deployFailedResult]

lemma deploy_render_status (env : Env) (st : EngineState)
    (device_name role : String) (dryRun : Bool) (device_config : DeviceConfig)
    (trace : List CallEvent) :
    (deploy_render env st device_name role dryRun device_config trace).result.status =
        DeploymentStatus.success ∨
    ((deploy_render env st device_name role dryRun device_config trace).result.status =
        DeploymentStatus.failed ∧
     (deploy_render env st device_name role dryRun device_config trace).result.error ≠ none) := by
  unfold deploy_render
  simp only []
  split
  · exact deploy_finish_status ..
  · simp [failedResult]

/-- C4: `deployDevice` is total (the outer catch-all of the source is
modelled by the absence of any escaping fault path), its status is
always `Success` or `Failed`, and on every `Failed` path the `error`
field is populated. -/
theorem C4_deploy_device_total (env : Env) (inv : Inventory) (st : EngineState)
    (d : DeviceConfig) (dr : Option Bool) :
    (deploy_device env inv st d dr).result.status = DeploymentStatus.success ∨
    ((deploy_device env inv st d dr).result.status = DeploymentStatus.failed ∧
     (deploy_device env inv st d dr).result.error ≠ none) := by
  unfold deploy_device
  simp only []
  repeat' split
  all_goals
    first
      | exact deploy_render_status ..
      | simp [failedResult, exceptionResult]

/-! ## C5 -/

/-- A dry-run device with non-empty IP and template but an unmappable
role: `generate_config` returns `None`, so the result is `Failed`. -/
def dC5bad : DeviceConfig :=
  { name := some "edge1", ip := some "10.0.0.7", template := some "edge_router",
    deployment_order := some 1 }

/-- A dry-run device whose role maps to a template that renders. -/
def dC5w : DeviceConfig :=
  { name := some "core1", ip := some "10.0.0.1", role := some "core",
    template := some "core_switch", deployment_order := some 1 }

/-- C5 counterexample: under `dryRunOverride = true`, a device with a
non-empty IP and a non-empty template name still yields `Failed` when
configuration generation fails (here: its `role` key is absent, so the
role→template table has no entry) — refuting "every device that has a
non-empty IP and a non-empty template name yields Success". -/
theorem C5_counterexample :
    pyTruthy dC5bad.ip = true ∧
    pyTruthy dC5bad.template = true ∧
    (deploy_device trivEnv {} {} dC5bad (some true)).result.status =
      DeploymentStatus.failed := by
  decide

lemma deploy_device_dry_calls (env : Env) (inv : Inventory) (st : EngineState)
    (d : DeviceConfig) :
    (deploy_device env inv st d (some true)).calls = [] := by
  unfold deploy_device deploy_render deploy_finish
  simp only [effectiveDryRun, Option.getD_some]
  repeat' split
  all_goals first | rfl | simp_all

lemma deploy_step_dry_calls (env : Env) (inv : Inventory) (s : LoopState)
    (d : DeviceConfig) :
    (deploy_step env inv true s d).calls = s.calls := by
  unfold deploy_step
  simp only []
  split
  · rfl
  · simp only [deploy_device_dry_calls, List.append_nil]
    split <;> rfl

lemma deploy_loop_dry_calls (env : Env) (inv : Inventory) :
    ∀ (ds : List DeviceConfig) (s : LoopState),
      (deploy_loop env inv true ds s).calls = s.calls := by
  intro ds
  induction ds with
  | nil => intro s; rfl
  | cons d rest ih =>
      intro s
      unfold deploy_loop
      rw [ih, deploy_step_dry_calls]

/-- C5 (amended): with `dryRunOverride = true` no transport call
(`connect`/`deployConfig`/`disconnect`) is ever made; and a device with
non-empty IP and template yields `Success` provided its configuration
generation succeeds (role maps to a template and rendering returns
non-empty text) — without that extra condition the success half is
false (see the counterexample). -/
theorem C5_dry_run (env : Env) (inv : Inventory) (st : EngineState)
    (devices : List DeviceConfig) (d : DeviceConfig)
    (hip : pyTruthy d.ip = true)
    (htpl : pyTruthy d.template = true)
    (hgen : pyTruthy (generate_config env st (d.role.getD "unknown") d).1 = true) :
    (deploy_all_devices env inv st devices (some true)).calls = [] ∧
    (deploy_device env inv st d (some true)).result.status =
      DeploymentStatus.success := by
  constructor
  · unfold deploy_all_devices
    repeat' split
    · rfl
    · rfl
    · simp only [effectiveDryRun, Option.getD_some]
      exact deploy_loop_dry_calls ..
  · unfold deploy_device
    simp only [effectiveDryRun, Option.getD_some, hip, htpl]
    unfold deploy_render
    rw [if_pos hgen]
    unfold deploy_finish
    simp [successResult]

/-- C5 witness: the amended theorem at a concrete renderable device. -/
theorem C5_dry_run_witness :
    pyTruthy dC5w.ip = true ∧
    pyTruthy dC5w.template = true ∧
    pyTruthy (generate_config trivEnv {} (dC5w.role.getD "unknown") dC5w).1 = true ∧
    ((deploy_all_devices trivEnv {} {} [dC5w] (some true)).calls = [] ∧
     (deploy_device trivEnv {} {} dC5w (some true)).result.status =
       DeploymentStatus.success) :=
  ⟨by decide, by decide, by decide,
    C5_dry_run trivEnv {} {} [dC5w] dC5w (by decide) (by decide) (by decide)⟩

/-! ## C3 -/

lemma deploy_step_skip (env : Env) (inv : Inventory) (dryRun : Bool)
    (s : LoopState) (d : DeviceConfig)
    (hrb : rollbackEnabled inv = true) (hf : 0 < s.failed) :
    deploy_step env inv dryRun s d =
      { s with results := dictInsert s.results (d.name.getD "unknown")
                 (skippedResult (d.name.getD "unknown")),
               skipped := s.skipped + 1,
               doneDevices := s.doneDevices ++ [d] } := by
  unfold deploy_step
  simp only []
  rw [if_pos (⟨hrb, hf⟩ : rollbackEnabled inv = true ∧ 0 < s.failed)]

/-- Once a failure has been recorded and the skip-gate is armed, the
remaining loop only writes `Skipped` entries: counters other than
`skipped` freeze, no transport call and no engine-state change occurs,
and every remaining device's entry is the fixed skipped result. -/
lemma skip_loop_spec (env : Env) (inv : Inventory) (dryRun : Bool)
    (hrb : rollbackEnabled inv = true) :
    ∀ (ds : List DeviceConfig) (s : LoopState), 0 < s.failed →
      (deploy_loop env inv dryRun ds s).successful = s.successful ∧
      (deploy_loop env inv dryRun ds s).failed = s.failed ∧
      (deploy_loop env inv dryRun ds s).skipped = s.skipped + ds.length ∧
      (deploy_loop env inv dryRun ds s).calls = s.calls ∧
      (deploy_loop env inv dryRun ds s).engine = s.engine ∧
      (∀ k, lookupPy (deploy_loop env inv dryRun ds s).results k = lookupPy s.results k ∨
            lookupPy (deploy_loop env inv dryRun ds s).results k = some (skippedResult k)) ∧
      (∀ d ∈ ds, lookupPy (deploy_loop env inv dryRun ds s).results (d.name.getD "unknown") =
          some (skippedResult (d.name.getD "unknown"))) := by
  intro ds
  induction ds with
  | nil =>
      intro s _
      exact ⟨rfl, rfl, rfl, rfl, rfl, fun k => Or.inl rfl,
             fun d hd => absurd hd (List.not_mem_nil d)⟩
  | cons d rest ih =>
      intro s hf
      have hloop : deploy_loop env inv dryRun (d :: rest) s =
          deploy_loop env inv dryRun rest (deploy_step env inv dryRun s d) := rfl
      rw [hloop, deploy_step_skip env inv dryRun s d hrb hf]
      obtain ⟨h1, h2, h3, h4, h5, h6, h7⟩ :=
        ih { s with results := dictInsert s.results (d.name.getD "unknown")
                      (skippedResult (d.name.getD "unknown")),
                    skipped := s.skipped + 1,
                    doneDevices := s.doneDevices ++ [d] } hf
      refine ⟨h1, h2, ?_, h4, h5, ?_, ?_⟩
      · rw [h3]
        simp only [List.length_cons]
        omega
      · intro k
        rcases h6 k with h | h
        · rw [h, lookupPy_dictInsert]
          by_cases hk : d.name.getD "unknown" = k
          · subst hk
            simp
          · rw [if_neg hk]
            exact Or.inl rfl
        · exact Or.inr h
      · intro d' hd'
        rcases List.mem_cons.mp hd' with hd' | hd'
        · subst hd'
          rcases h6 (d'.name.getD "unknown") with h | h
          · rw [h, lookupPy_dictInsert, if_pos rfl]
          · exact h
        · exact h7 d' hd'

/-- The environment of the concrete three-device example: a single
valid template, every render succeeding with a one-line text. -/
def envC3 : Env :=
  { trivEnv with listTemplatesFS := ["management_switch.j2"] }

/-- First device of the example: deployable. -/
def d31 : DeviceConfig :=
  { name := some "d1", ip := some "10.0.0.1", role := some "management",
    template := some "management_switch", deployment_order := some 1 }

/-- Second device of the example: missing `ip`, will fail. -/
def d32 : DeviceConfig :=
  { name := some "d2", role := some "management",
    template := some "management_switch", deployment_order := some 2 }

/-- Third device of the example: deployable, but skipped by the gate. -/
def d33 : DeviceConfig :=
  { name := some "d3", ip := some "10.0.0.3", role := some "management",
    template := some "management_switch", deployment_order := some 3 }

/-- A loop state with one failure already recorded. -/
def sC3 : LoopState :=
  { engine := {}, failed := 1 }

/-- C3: with `rollbackOnFailure` enabled, every device whose turn comes
after a recorded failure is written as `Skipped` with the fixed message,
the `skipped` counter advances by exactly the number of remaining
devices, `deployDevice` is not executed for any of them (no transport
call, no engine-state change, no success/failure count movement); and in
the concrete three-device run where device 2 fails, device 1 is
attempted normally (`Success`), device 2 is `Failed`, device 3 is
`Skipped`, with counters 1/1/1. -/
theorem C3_skip_gate :
    (∀ (env : Env) (inv : Inventory) (dryRun : Bool)
       (ds : List DeviceConfig) (s : LoopState),
       rollbackEnabled inv = true → 0 < s.failed →
         (deploy_loop env inv dryRun ds s).successful = s.successful ∧
         (deploy_loop env inv dryRun ds s).failed = s.failed ∧
         (deploy_loop env inv dryRun ds s).skipped = s.skipped + ds.length ∧
         (deploy_loop env inv dryRun ds s).calls = s.calls ∧
         (deploy_loop env inv dryRun ds s).engine = s.engine ∧
         (∀ d ∈ ds, lookupPy (deploy_loop env inv dryRun ds s).results
             (d.name.getD "unknown") =
           some (skippedResult (d.name.getD "unknown")))) ∧
    ((deploy_all_devices envC3 {} {} [d31, d32, d33] (some true)).result.successful = 1 ∧
     (deploy_all_devices envC3 {} {} [d31, d32, d33] (some true)).result.failed = 1 ∧
     (deploy_all_devices envC3 {} {} [d31, d32, d33] (some true)).result.skipped = 1 ∧
     lookupPy (deploy_all_devices envC3 {} {} [d31, d32, d33] (some true)).result.results "d1" =
       some (successResult "d1" 1) ∧
     lookupPy (deploy_all_devices envC3 {} {} [d31, d32, d33] (some true)).result.results "d2" =
       some (failedResult "d2" "No IP address specified" "Missing device IP address") ∧
     lookupPy (deploy_all_devices envC3 {} {} [d31, d32, d33] (some true)).result.results "d3" =
       some (skippedResult "d3")) := by
  constructor
  · intro env inv dryRun ds s hrb hf
    obtain ⟨h1, h2, h3, h4, h5, _, h7⟩ := skip_loop_spec env inv dryRun hrb ds s hf
    exact ⟨h1, h2, h3, h4, h5, h7⟩
  · decide

/-- C3 witness: the skip-gate part applied at a concrete armed state. -/
theorem C3_skip_gate_witness :
    rollbackEnabled {} = true ∧ 0 < sC3.failed ∧
    (deploy_loop trivEnv {} true [d33] sC3).skipped = sC3.skipped + 1 ∧
    lookupPy (deploy_loop trivEnv {} true [d33] sC3).results "d3" =
      some (skippedResult "d3") := by
  refine ⟨by decide, by decide, ?_, ?_⟩
  · exact (C3_skip_gate.1 trivEnv {} true [d33] sC3 (by decide) (by decide)).2.2.1
  · exact (C3_skip_gate.1 trivEnv {} true [d33] sC3 (by decide)
      (by decide)).2.2.2.2.2 d33 (by decide)

/-! ## C7 -/

/-- First device of the C7 counterexample run: missing `ip`, fails. -/
def dn1ip : DeviceConfig :=
  { name := some "n1", deployment_order := some 1 }

/-- Second device of the C7 counterexample run: also missing `ip`, but
pre-skipped by the armed skip-gate — hence counted in `skipped`. -/
def dn2ip : DeviceConfig :=
  { name := some "n2", deployment_order := some 2 }

/-- C7 counterexample: a device lacking `ip` is NOT always counted in
`failed` — with `rollbackOnFailure` defaulted on and an earlier failure,
`deployAllDevices` records it as `Skipped`, so it lands in the `skipped`
counter, refuting "counted in failed, never in skipped". -/
theorem C7_counterexample :
    pyTruthy dn2ip.ip = false ∧
    (deploy_all_devices trivEnv {} {} [dn1ip, dn2ip] (some true)).result.failed = 1 ∧
    (deploy_all_devices trivEnv {} {} [dn1ip, dn2ip] (some true)).result.skipped = 1 ∧
    lookupPy (deploy_all_devices trivEnv {} {} [dn1ip, dn2ip] (some true)).result.results "n2" =
      some (skippedResult "n2") := by
  decide

/-- C7 (amended): `deployDevice` on a device lacking a (truthy) `ip`
value returns, for either dry-run flag, the `Failed` result with message
"No IP address specified" and a populated error, making no transport
call; and in the device loop such a device is counted in `failed` (not
`skipped`) whenever the skip-gate has not fired before its turn — when
the gate has fired (rollback enabled and a prior failure), it is counted
in `skipped` like any other pre-skipped device. -/
theorem C7_missing_ip (env : Env) (inv : Inventory) (st : EngineState)
    (d : DeviceConfig) (dr : Option Bool) (dryRun : Bool) (s : LoopState)
    (hip : pyTruthy d.ip = false)
    (hgate : ¬ (rollbackEnabled inv = true ∧ 0 < s.failed)) :
    (deploy_device env inv st d dr).result =
      failedResult (d.name.getD "unknown") "No IP address specified"
        "Missing device IP address" ∧
    (deploy_device env inv st d dr).calls = [] ∧
    (deploy_step env inv dryRun s d).failed = s.failed + 1 ∧
    (deploy_step env inv dryRun s d).skipped = s.skipped ∧
    (deploy_step env inv dryRun s d).successful = s.successful := by
  have hdev : deploy_device env inv st d dr =
      { result := failedResult (d.name.getD "unknown") "No IP address specified"
                    "Missing device IP address",
        device := d, engine := st, calls := [] } := by
    unfold deploy_device
    simp only []
    rw [if_pos]
    simp [hip]
  have hdev2 : deploy_device env inv s.engine d (some dryRun) =
      { result := failedResult (d.name.getD "unknown") "No IP address specified"
                    "Missing device IP address",
        device := d, engine := s.engine, calls := [] } := by
    unfold deploy_device
    simp only []
    rw [if_pos]
    simp [hip]
  have hstep : deploy_step env inv dryRun s d =
      { s with results := dictInsert s.results (d.name.getD "unknown")
                 (failedResult (d.name.getD "unknown") "No IP address specified"
                   "Missing device IP address"),
               failed := s.failed + 1,
               doneDevices := s.doneDevices ++ [d] } := by
    unfold deploy_step
    simp only []
    rw [if_neg hgate, hdev2]
    simp [failedResult]
  rw [hdev, hstep]
  exact ⟨rfl, rfl, rfl, rfl, rfl⟩

/-- C7 witness: the amended theorem at a concrete missing-ip device with
the skip-gate not armed. -/
theorem C7_missing_ip_witness :
    pyTruthy dn1ip.ip = false ∧
    ¬ (rollbackEnabled {} = true ∧ 0 < (initLoopState {}).failed) ∧
    (deploy_device trivEnv {} {} dn1ip none).result =
      failedResult "n1" "No IP address specified" "Missing device IP address" ∧
    (deploy_step trivEnv {} true (initLoopState {}) dn1ip).failed = 1 := by
  refine ⟨by decide, by decide, ?_, ?_⟩
  · exact (C7_missing_ip trivEnv {} {} dn1ip none true (initLoopState {})
      (by decide) (by decide)).1
  · exact (C7_missing_ip trivEnv {} {} dn1ip none true (initLoopState {})
      (by decide) (by decide)).2.2.1

/-! ## C9 -/

/-- The frame relation between a device dict as loaded and the same dict
after the run: every inventory field is preserved except `device_type`,
which `generate_config` may overwrite with the device's *role* (the
orchestrator passes `role` as `generate_config`'s `device_type`
argument). -/
def frameRel (a b : DeviceConfig) : Prop :=
  b.name = a.name ∧ b.ip = a.ip ∧ b.role = a.role ∧ b.template = a.template ∧
  b.deployment_order = a.deployment_order ∧ b.credentials = a.credentials ∧
  (b.device_type = a.device_type ∨ b.device_type = some (a.role.getD "unknown"))

lemma frameRel_refl (a : DeviceConfig) : frameRel a a :=
  ⟨rfl, rfl, rfl, rfl, rfl, rfl, Or.inl rfl⟩

lemma deploy_finish_device (env : Env) (device_name : String) (dryRun : Bool)
    (config : String) (dev : DeviceConfig) (st : EngineState)
    (trace : List CallEvent) :
    (deploy_finish env device_name dryRun config dev st trace).device = dev := by
  unfold deploy_finish
  repeat' split
  all_goals rfl

lemma generate_config_frame (env : Env) (st : EngineState) (dt : String)
    (d : DeviceConfig) :
    (generate_config env st dt d).2.1.name = d.name ∧
    (generate_config env st dt d).2.1.ip = d.ip ∧
    (generate_config env st dt d).2.1.role = d.role ∧
    (generate_config env st dt d).2.1.template = d.template ∧
    (generate_config env st dt d).2.1.deployment_order = d.deployment_order ∧
    (generate_config env st dt d).2.1.credentials = d.credentials ∧
    ((generate_config env st dt d).2.1.device_type = d.device_type ∨
     (generate_config env st dt d).2.1.device_type = some dt) := by
  unfold generate_config
  split
  · exact ⟨rfl, rfl, rfl, rfl, rfl, rfl, Or.inl rfl⟩
  · exact ⟨rfl, rfl, rfl, rfl, rfl, rfl, Or.inr rfl⟩

lemma deploy_render_frame (env : Env) (st : EngineState) (device_name : String)
    (dryRun : Bool) (d : DeviceConfig) (trace : List CallEvent) :
    frameRel d
      (deploy_render env st device_name (d.role.getD "unknown") dryRun d trace).device := by
  have hg := generate_config_frame env st (d.role.getD "unknown") d
  unfold deploy_render
  simp only []
  split
  · rw [deploy_finish_device]
    exact hg
  · exact hg

/-- `deployDevice` preserves every device field except `device_type`,
which it may overwrite with the device's role. -/
lemma deploy_device_frame (env : Env) (inv : Inventory) (st : EngineState)
    (d : DeviceConfig) (dr : Option Bool) :
    frameRel d (deploy_device env inv st d dr).device := by
  unfold deploy_device
  simp only []
  repeat' split
  all_goals first
    | exact frameRel_refl d
    | exact deploy_render_frame ..

lemma deploy_step_done (env : Env) (inv : Inventory) (dryRun : Bool)
    (s : LoopState) (d : DeviceConfig) :
    ∃ b, (deploy_step env inv dryRun s d).doneDevices = s.doneDevices ++ [b] ∧
      frameRel d b := by
  unfold deploy_step
  simp only []
  split
  · exact ⟨d, rfl, frameRel_refl d⟩
  · split
    · exact ⟨_, rfl, deploy_device_frame ..⟩
    · exact ⟨_, rfl, deploy_device_frame ..⟩

lemma deploy_loop_devices (env : Env) (inv : Inventory) (dryRun : Bool) :
    ∀ (ds : List DeviceConfig) (s : LoopState),
      ∃ out, (deploy_loop env inv dryRun ds s).doneDevices = s.doneDevices ++ out ∧
        List.Forall₂ frameRel ds out := by
  intro ds
  induction ds with
  | nil => intro s; exact ⟨[], by simp [deploy_loop], List.Forall₂.nil⟩
  | cons d rest ih =>
      intro s
      obtain ⟨b, hb, hfr⟩ := deploy_step_done env inv dryRun s d
      obtain ⟨out, hout, hall⟩ := ih (deploy_step env inv dryRun s d)
      refine ⟨b :: out, ?_, List.Forall₂.cons hfr hall⟩
      have : deploy_loop env inv dryRun (d :: rest) s =
          deploy_loop env inv dryRun rest (deploy_step env inv dryRun s d) := rfl
      rw [this, hout, hb, List.append_assoc]
      rfl

/-- A device whose `device_type` differs from its `role`: the run
overwrites `device_type` with the role. -/
def dev9 : DeviceConfig :=
  { name := some "c1", ip := some "10.0.0.9", device_type := some "huawei",
    role := some "core", template := some "x", deployment_order := some 1 }

/-- C9 counterexample: `deployDevice` mutates the device dict — the
`device_type` field of a device entering as `"huawei"` leaves the call
as `"core"` (its role), refuting "no field of its configuration is
modified between inventory load and the end of the run". -/
theorem C9_counterexample :
    dev9.device_type = some "huawei" ∧
    (deploy_device trivEnv {} {} dev9 (some true)).device.device_type = some "core" := by
  decide

/-- C9 (amended): within a run, every device field except `device_type`
(and the auxiliary `template_name` rendering variable) is preserved by
every operation — `name`, `ip`, `role`, `templateName`,
`deploymentOrder` and `credentials` are read-only; `device_type` is
either untouched or overwritten with the device's role by the
configuration-generation step.  This holds for each `deployDevice` call
and, field-by-field and device-by-device, across the whole device loop. -/
theorem C9_device_frame :
    (∀ (env : Env) (inv : Inventory) (st : EngineState) (d : DeviceConfig)
       (dr : Option Bool), frameRel d (deploy_device env inv st d dr).device) ∧
    (∀ (env : Env) (inv : Inventory) (dryRun : Bool) (ds : List DeviceConfig)
       (s : LoopState),
       ∃ out, (deploy_loop env inv dryRun ds s).doneDevices = s.doneDevices ++ out ∧
         List.Forall₂ frameRel ds out) :=
  ⟨fun env inv st d dr => deploy_device_frame env inv st d dr,
   fun env inv dryRun ds s => deploy_loop_devices env inv dryRun ds s⟩

/-! ## C10 -/

lemma deploy_step_sum (env : Env) (inv : Inventory) (dryRun : Bool)
    (s : LoopState) (d : DeviceConfig) :
    (deploy_step env inv dryRun s d).successful +
    (deploy_step env inv dryRun s d).failed +
    (deploy_step env inv dryRun s d).skipped =
      s.successful + s.failed + s.skipped + 1 := by
  unfold deploy_step
  simp only []
  repeat' split
  all_goals simp only []
  all_goals omega

lemma deploy_loop_sum (env : Env) (inv : Inventory) (dryRun : Bool) :
    ∀ (ds : List DeviceConfig) (s : LoopState),
      (deploy_loop env inv dryRun ds s).successful +
      (deploy_loop env inv dryRun ds s).failed +
      (deploy_loop env inv dryRun ds s).skipped =
        s.successful + s.failed + s.skipped + ds.length := by
  intro ds
  induction ds with
  | nil => intro s; simp [deploy_loop]
  | cons d rest ih =>
      intro s
      have hl : deploy_loop env inv dryRun (d :: rest) s =
          deploy_loop env inv dryRun rest (deploy_step env inv dryRun s d) := rfl
      rw [hl, ih]
      rw [deploy_step_sum]
      simp only [List.length_cons]
      omega

/-- C10: every `DeploymentResult` returned by `deployAllDevices` — the
empty-inventory result, the gate-failure result, and the completed-loop
result — satisfies `totalDevices = successful + failed + skipped`; and
each loop iteration moves exactly one of the three counters by one, so
each device in the sequence is counted exactly once. -/
theorem C10_counter_partition :
    (∀ (env : Env) (inv : Inventory) (st : EngineState)
       (devices : List DeviceConfig) (dry : Option Bool),
       (deploy_all_devices env inv st devices dry).result.total_devices =
         (deploy_all_devices env inv st devices dry).result.successful +
         (deploy_all_devices env inv st devices dry).result.failed +
         (deploy_all_devices env inv st devices dry).result.skipped) ∧
    (∀ (env : Env) (inv : Inventory) (dryRun : Bool)
       (ds : List DeviceConfig) (s : LoopState),
       (deploy_loop env inv dryRun ds s).successful +
       (deploy_loop env inv dryRun ds s).failed +
       (deploy_loop env inv dryRun ds s).skipped =
         s.successful + s.failed + s.skipped + ds.length) := by
  constructor
  · intro env inv st devices dry
    unfold deploy_all_devices
    split
    · rfl
    · split
      · simp
      · have hs := deploy_loop_sum env inv (effectiveDryRun inv dry)
          (get_deployment_sequence devices) (initLoopState st)
        simp only [initLoopState] at hs ⊢
        rw [hs]
        simp [get_deployment_sequence]
  · exact deploy_loop_sum

/-! ## C6 -/

/-- Annotate a device list with its declaration positions. -/
def withIndices : Nat → List DeviceConfig → List (Nat × DeviceConfig)
  | _, [] => []
  | n, d :: t => (n, d) :: withIndices (n + 1) t

/-- The sort comparison lifted to position-annotated devices (the key
function ignores the position, exactly as Python's `key=` does). -/
def idxOrderLE (a b : Nat × DeviceConfig) : Prop :=
  devOrderLE a.2 b.2

instance : DecidableRel idxOrderLE := fun a b =>
  inferInstanceAs (Decidable (devOrderLE a.2 b.2))

/-- The deployment sequence computed on position-annotated devices. -/
def sequence_indexed (devices : List DeviceConfig) : List (Nat × DeviceConfig) :=
  List.insertionSort idxOrderLE (withIndices 0 devices)

/-- Strict lexicographic order on (deployment order, declaration
position): the statement of stability — equal keys keep declaration
order. -/
def idxLex (a b : Nat × DeviceConfig) : Prop :=
  orderKey a.2 < orderKey b.2 ∨ (orderKey a.2 = orderKey b.2 ∧ a.1 ≤ b.1)

lemma withIndices_map_snd : ∀ (n : Nat) (l : List DeviceConfig),
    (withIndices n l).map Prod.snd = l := by
  intro n l
  induction l generalizing n with
  | nil => rfl
  | cons d t ih => simp [withIndices, ih]

lemma mem_withIndices_le : ∀ (l : List DeviceConfig) (n : Nat)
    (p : Nat × DeviceConfig), p ∈ withIndices n l → n ≤ p.1 := by
  intro l
  induction l with
  | nil => intro n p hp; simp [withIndices] at hp
  | cons d t ih =>
      intro n p hp
      rcases List.mem_cons.mp hp with h | h
      · subst h; exact Nat.le_refl n
      · exact Nat.le_of_succ_le (ih (n + 1) p h)

lemma pairwise_withIndices : ∀ (l : List DeviceConfig) (n : Nat),
    List.Pairwise (fun a b : Nat × DeviceConfig => a.1 < b.1) (withIndices n l) := by
  intro l
  induction l with
  | nil => intro n; exact List.Pairwise.nil
  | cons d t ih =>
      intro n
      refine List.Pairwise.cons ?_ (ih (n + 1))
      intro p hp
      exact Nat.lt_of_succ_le (mem_withIndices_le t (n + 1) p hp)

lemma idxLex_key_le {a b : Nat × DeviceConfig} (h : idxLex a b) :
    orderKey a.2 ≤ orderKey b.2 := by
  rcases h with h | ⟨h, _⟩
  · exact le_of_lt h
  · exact le_of_eq h

lemma idxLex_orderedInsert (a : Nat × DeviceConfig) :
    ∀ (m : List (Nat × DeviceConfig)), List.Pairwise idxLex m →
      (∀ b ∈ m, a.1 < b.1) →
      List.Pairwise idxLex (List.orderedInsert idxOrderLE a m) := by
  intro m
  induction m with
  | nil =>
      intro _ _
      simp [List.orderedInsert]
  | cons b t ih =>
      intro hp hidx
      by_cases h : idxOrderLE a b
      · rw [List.orderedInsert_of_le idxOrderLE t h]
        refine List.Pairwise.cons ?_ hp
        intro c hc
        rcases List.mem_cons.mp hc with hc | hc
        · subst hc
          rcases lt_or_eq_of_le (h : orderKey a.2 ≤ orderKey c.2) with hlt | heq
          · exact Or.inl hlt
          · exact Or.inr ⟨heq, Nat.le_of_lt (hidx c (List.mem_cons_self c t))⟩
        · have hbc : orderKey b.2 ≤ orderKey c.2 :=
            idxLex_key_le (List.rel_of_pairwise_cons hp hc)
          have hab : orderKey a.2 ≤ orderKey b.2 := h
          rcases lt_or_eq_of_le (le_trans hab hbc) with hlt | heq
          · exact Or.inl hlt
          · exact Or.inr ⟨heq, Nat.le_of_lt (hidx c (List.mem_cons_of_mem b hc))⟩
      · have hba : orderKey b.2 < orderKey a.2 := by
          have := not_le.mp (fun hc => h hc)
          exact this
        rw [List.orderedInsert]
        rw [if_neg h]
        refine List.Pairwise.cons ?_ ?_
        · intro c hc
          rcases (List.mem_orderedInsert idxOrderLE).mp hc with hc | hc
          · subst hc
            exact Or.inl hba
          · exact List.rel_of_pairwise_cons hp hc
        · exact ih (List.Pairwise.of_cons hp)
            (fun b' hb' => hidx b' (List.mem_cons_of_mem b hb'))

lemma pairwise_idxLex_insertionSort :
    ∀ (l : List (Nat × DeviceConfig)),
      List.Pairwise (fun a b : Nat × DeviceConfig => a.1 < b.1) l →
      List.Pairwise idxLex (List.insertionSort idxOrderLE l) := by
  intro l
  induction l with
  | nil => intro _; exact List.Pairwise.nil
  | cons a t ih =>
      intro hp
      rw [List.insertionSort]
      refine idxLex_orderedInsert a (List.insertionSort idxOrderLE t)
        (ih (List.Pairwise.of_cons hp)) ?_
      intro b hb
      exact List.rel_of_pairwise_cons hp ((List.mem_insertionSort idxOrderLE).mp hb)

lemma sequence_indexed_map_snd (devices : List DeviceConfig) :
    (sequence_indexed devices).map Prod.snd = get_deployment_sequence devices := by
  unfold sequence_indexed get_deployment_sequence
  rw [List.map_insertionSort idxOrderLE devOrderLE Prod.snd (withIndices 0 devices)
    (fun _ _ _ _ => Iff.rfl)]
  rw [withIndices_map_snd]

/-- A device declared with order 3 (first in declaration order). -/
def dA3 : DeviceConfig := { name := some "a", deployment_order := some 3 }

/-- A device declared with order 1 (second in declaration order). -/
def dB1 : DeviceConfig := { name := some "b", deployment_order := some 1 }

/-- A device declared with order 2 (third in declaration order). -/
def dC2 : DeviceConfig := { name := some "c", deployment_order := some 2 }

/-- Two devices sharing deployment order 5, declared dT1 before dT2. -/
def dT1 : DeviceConfig := { name := some "t1", deployment_order := some 5 }

/-- The tied partner of `dT1`. -/
def dT2 : DeviceConfig := { name := some "t2", deployment_order := some 5 }

/-- C6: the deployment sequence is the device list stably sorted
ascending by `deploymentOrder` (default 999 when the key is absent):
the computed sequence is a permutation of the inventory, sorted by the
order key, and — annotating each device with its declaration position —
lexicographically sorted by (order key, declaration position), which is
exactly stability; concretely, declared orders `[3, 1, 2]` produce the
sequence `[1, 2, 3]`, and two devices with the same order keep their
declaration order. -/
theorem C6_stable_sequence :
    (∀ devices : List DeviceConfig,
       List.Perm (get_deployment_sequence devices) devices ∧
       List.Sorted devOrderLE (get_deployment_sequence devices) ∧
       (sequence_indexed devices).map Prod.snd = get_deployment_sequence devices ∧
       List.Pairwise idxLex (sequence_indexed devices)) ∧
    (get_deployment_sequence [dA3, dB1, dC2] = [dB1, dC2, dA3] ∧
     (get_deployment_sequence [dA3, dB1, dC2]).map orderKey = [1, 2, 3]) ∧
    (get_deployment_sequence [dT1, dT2] = [dT1, dT2] ∧
     orderKey dT1 = orderKey dT2 ∧ dT1 ≠ dT2) := by
  refine ⟨?_, by decide, by decide⟩
  intro devices
  exact ⟨List.perm_insertionSort devOrderLE devices,
         List.sorted_insertionSort devOrderLE devices,
         sequence_indexed_map_snd devices,
         pairwise_idxLex_insertionSort (withIndices 0 devices)
           (pairwise_withIndices devices 0)⟩
